import Mathlib

/-!
A verification development for the SQL rewrite (render) and analyse passes of
the martletbase proxy (`martlet-proxy/src/handler/parser/sql/`).

Embedding conventions:
* Every `impl SQLReWrite for T` (`fn rewrite(&self, f: &mut String, ctx) -> SRWResult`)
  is embedded as `T.rewrite : T → Ctx → RwResult` in the purely functional
  signature the design notes sanction (`render(node, context) -> text`): the
  function returns the text this node appends to the sink.  Sequential
  `write!` calls become concatenation in the same order, and the `?` operator
  becomes `Except` bind.
* Rust `panic!` / `Option::unwrap` on `None` (parser-invariant violations) are
  embedded as `Except.error (RwErr.panicErr _)`; a write to the `String` sink
  itself never fails.
* `u64` / `u16` sizes are embedded as `Nat` (they are only ever formatted).
* The render context `HashMap<String, String>` is embedded as an association
  list; the code under scrutiny only ever passes it along.
-/

set_option linter.unusedVariables false

/-- The render context: the caller-supplied string-to-string mapping. -/
abbrev Ctx := List (String × String)

instance {ε α : Type} [DecidableEq ε] [DecidableEq α] : DecidableEq (Except ε α) := fun
  | .ok a, .ok b => decidable_of_iff (a = b) (by simp)
  | .ok _, .error _ => isFalse (by simp)
  | .error _, .ok _ => isFalse (by simp)
  | .error a, .error b => decidable_of_iff (a = b) (by simp)

/-- Failure of a rewrite: only a `panic!` / `unwrap` on a broken parser
invariant can fail (writes to a `String` sink always succeed). -/
inductive RwErr where
  | panicErr (msg : String)
deriving DecidableEq, Repr

/-- Result of one rewrite: the text appended to the sink, or a panic. -/
abbrev RwResult := Except RwErr String

/-- An identifier: a value plus an optional quote-style marker
(`sqlparser::ast::Ident`). -/
structure Ident where
  value : String
  quote_style : Option Char
deriving DecidableEq, Repr

/-- A possibly-compound object name (`sqlparser::ast::ObjectName`, a
`Vec<Ident>`). -/
structure ObjectName where
  idents : List Ident
deriving DecidableEq, Repr

/-- The loop body of `impl SQLReWrite for DisplaySeparated`: the first element
is preceded by the empty delimiter, every later one by `sep`. -/
def displaySeparatedGo (rw : α → Ctx → RwResult) (sep : String) (ctx : Ctx) :
    String → List α → RwResult
  | _, [] => .ok ""
  | delim, t :: ts => do
    let s ← rw t ctx
    let rest ← displaySeparatedGo rw sep ctx sep ts
    .ok (delim ++ s ++ rest)

/-- `display_separated(slice, sep)` followed by its `rewrite`: render the
elements of `slice` joined by `sep` (rewrite/mod.rs lines 41-61). -/
def displaySeparated (rw : α → Ctx → RwResult) (slice : List α) (sep : String)
    (ctx : Ctx) : RwResult :=
  displaySeparatedGo rw sep ctx "" slice

/-- `display_comma_separated` (rewrite/mod.rs lines 63-68). -/
def displayCommaSeparated (rw : α → Ctx → RwResult) (slice : List α)
    (ctx : Ctx) : RwResult :=
  displaySeparated rw slice ", " ctx

/-- `impl SQLReWrite for Ident` (rewrite/mod.rs lines 70-80): quote markers
`"`, `'`, `` ` `` are self-pairing, `[` closes with `]`, no marker renders the
value verbatim, and any other marker is a panic. -/
def Ident.rewrite (i : Ident) (ctx : Ctx) : RwResult :=
  match i.quote_style with
  | some q =>
    if q = '"' ∨ q = '\'' ∨ q = '`' then
      .ok (q.toString ++ i.value ++ q.toString)
    else if q = '[' then
      .ok ("[" ++ i.value ++ "]")
    else
      .error (.panicErr "unexpected quote style")
  | none => .ok i.value

/-- `impl SQLReWrite for ObjectName` (rewrite/mod.rs lines 82-87):
dot-separated identifiers. -/
def ObjectName.rewrite (n : ObjectName) (ctx : Ctx) : RwResult :=
  displaySeparated Ident.rewrite n.idents "." ctx

/-- `impl SQLReWrite for String` (rewrite/mod.rs lines 89-94): a string
renders as itself. -/
def String.rewriteSql (s : String) (ctx : Ctx) : RwResult :=
  .ok s

/-- SQL data types (`sqlparser::ast::DataType`); sizes embedded as `Nat`. -/
inductive DataType where
  | char (size : Option Nat)
  | varchar (size : Option Nat)
  | uuid
  | clob (size : Nat)
  | binary (size : Nat)
  | varbinary (size : Nat)
  | blob (size : Nat)
  | decimal (precision : Option Nat) (scale : Option Nat)
  | float (size : Option Nat)
  | smallInt
  | int
  | bigInt
  | real
  | double
  | boolean
  | date
  | time
  | timestamp
  | interval
  | regclass
  | text
  | string
  | bytea
  | array (ty : DataType)
  | custom (ty : ObjectName)
deriving DecidableEq, Repr

/-- `format_type_with_optional_length` (rewrite/data_type.rs lines 111-121). -/
def formatTypeWithOptionalLength (sql_type : String) (len : Option Nat) :
    RwResult :=
  .ok (sql_type ++ match len with
    | some l => "(" ++ toString l ++ ")"
    | none => "")

/-- `impl SQLReWrite for DataType` (rewrite/data_type.rs lines 23-109).  The
`Decimal` arm unwraps the precision when a scale is present; an absent
precision there is the `unwrap` panic. -/
def DataType.rewrite (dt : DataType) (ctx : Ctx) : RwResult :=
  match dt with
  | .char size => formatTypeWithOptionalLength "CHAR" size
  | .varchar size => formatTypeWithOptionalLength "CHARACTER VARYING" size
  | .uuid => .ok "UUID"
  | .clob size => .ok ("CLOB(" ++ toString size ++ ")")
  | .binary size => .ok ("BINARY(" ++ toString size ++ ")")
  | .varbinary size => .ok ("VARBINARY(" ++ toString size ++ ")")
  | .blob size => .ok ("BLOB(" ++ toString size ++ ")")
  | .decimal precision scale =>
    match scale with
    | some s =>
      match precision with
      | some p => .ok ("NUMERIC(" ++ toString p ++ "," ++ toString s ++ ")")
      | none => .error (.panicErr "called Option::unwrap on a None value")
    | none => formatTypeWithOptionalLength "NUMERIC" precision
  | .float size => formatTypeWithOptionalLength "FLOAT" size
  | .smallInt => .ok "SMALLINT"
  | .int => .ok "INT"
  | .bigInt => .ok "BIGINT"
  | .real => .ok "REAL"
  | .double => .ok "DOUBLE"
  | .boolean => .ok "BOOLEAN"
  | .date => .ok "DATE"
  | .time => .ok "TIME"
  | .timestamp => .ok "TIMESTAMP"
  | .interval => .ok "INTERVAL"
  | .regclass => .ok "REGCLASS"
  | .text => .ok "TEXT"
  | .string => .ok "STRING"
  | .bytea => .ok "BYTEA"
  | .array ty => do
    let s ← ty.rewrite ctx
    .ok (s ++ "[]")
  | .custom ty => ty.rewrite ctx

/-- External table's available file format (`sqlparser::ast::FileFormat`). -/
inductive FileFormat where
  | TEXTFILE
  | SEQUENCEFILE
  | ORC
  | PARQUET
  | AVRO
  | RCFILE
  | JSONFILE
deriving DecidableEq, Repr

/-- `impl SQLReWrite for FileFormat` (rewrite/mod.rs lines 1083-1097): note
that `JSONFILE` renders as the text `TEXTFILE`. -/
def FileFormat.rewrite (ff : FileFormat) (ctx : Ctx) : RwResult :=
  .ok (match ff with
    | .TEXTFILE => "TEXTFILE"
    | .SEQUENCEFILE => "SEQUENCEFILE"
    | .ORC => "ORC"
    | .PARQUET => "PARQUET"
    | .AVRO => "AVRO"
    | .RCFILE => "RCFILE"
    | .JSONFILE => "TEXTFILE")

/-- Unary operators (`sqlparser::ast::UnaryOperator`). -/
inductive UnaryOperator where
  | plus
  | minus
  | not
  | pgBitwiseNot
  | pgSquareRoot
  | pgCubeRoot
  | pgPostfixFactorial
  | pgPrefixFactorial
  | pgAbs
deriving DecidableEq, Repr

/-- `impl SQLReWrite for UnaryOperator` (rewrite/operator.rs lines 23-38). -/
def UnaryOperator.rewrite (op : UnaryOperator) (ctx : Ctx) : RwResult :=
  .ok (match op with
    | .plus => "+"
    | .minus => "-"
    | .not => "NOT"
    | .pgBitwiseNot => "~"
    | .pgSquareRoot => "|/"
    | .pgCubeRoot => "||/"
    | .pgPostfixFactorial => "!"
    | .pgPrefixFactorial => "!!"
    | .pgAbs => "@")

/-- Binary operators (`sqlparser::ast::BinaryOperator`). -/
inductive BinaryOperator where
  | plus
  | minus
  | multiply
  | divide
  | modulus
  | stringConcat
  | gt
  | lt
  | gtEq
  | ltEq
  | spaceship
  | eq
  | notEq
  | and
  | or
  | like
  | notLike
  | bitwiseOr
  | bitwiseAnd
  | bitwiseXor
  | pgBitwiseXor
  | pgBitwiseShiftLeft
  | pgBitwiseShiftRight
  | iLike
  | notILike
deriving DecidableEq, Repr

/-- `impl SQLReWrite for BinaryOperator` (rewrite/operator.rs lines 41-72). -/
def BinaryOperator.rewrite (op : BinaryOperator) (ctx : Ctx) : RwResult :=
  .ok (match op with
    | .plus => "+"
    | .minus => "-"
    | .multiply => "*"
    | .divide => "/"
    | .modulus => "%"
    | .stringConcat => "||"
    | .gt => ">"
    | .lt => "<"
    | .gtEq => ">="
    | .ltEq => "<="
    | .spaceship => "<=>"
    | .eq => "="
    | .notEq => "<>"
    | .and => "AND"
    | .or => "OR"
    | .like => "LIKE"
    | .notLike => "NOT LIKE"
    | .bitwiseOr => "|"
    | .bitwiseAnd => "&"
    | .bitwiseXor => "^"
    | .pgBitwiseXor => "#"
    | .pgBitwiseShiftLeft => "<<"
    | .pgBitwiseShiftRight => ">>"
    | .iLike => "ILIKE"
    | .notILike => "NOT ILIKE")

/-- Modelled from the spec: `value::escape_single_quote_string`
(rewrite/value.rs is not among the given files).  The spec's §4.1/§8 name one
shared escaping routine for string literals needing single-quote escaping; an
embedded single quote is escaped so that the surrounding literal remains
correctly delimited, i.e. it is doubled. -/
def escapeSingleQuoteString (s : String) : String :=
  String.mk (s.data.foldr
    (fun c acc => if c = '\'' then '\'' :: '\'' :: acc else c :: acc) [])

/-- Modelled from the spec: SQL literal values (`sqlparser::ast::Value`;
rewrite/value.rs is not among the given files).  Only the variants the claims
touch are modelled: numbers render verbatim and single-quoted strings render
through the shared escaping routine between single quotes. -/
inductive Value where
  | number (n : String)
  | singleQuotedString (s : String)
  | boolean (b : Bool)
  | null
deriving DecidableEq, Repr

/-- Modelled from the spec: `impl SQLReWrite for Value` (rewrite/value.rs is
not among the given files). -/
def Value.rewrite (v : Value) (ctx : Ctx) : RwResult :=
  .ok (match v with
    | .number n => n
    | .singleQuotedString s => "'" ++ escapeSingleQuoteString s ++ "'"
    | .boolean b => if b then "TRUE" else "FALSE"
    | .null => "NULL")

/-- A word of the tokenizer (`sqlparser::tokenizer::Word`): its text and the
quote style it was written with (the keyword tag is never consulted by the
rewrite and is not modelled). -/
structure Word where
  value : String
  quote_style : Option Char
deriving DecidableEq, Repr

/-- `matching_end_quote` (rewrite/mod.rs lines 1337-1344): panics on an
unexpected quoting style. -/
def matchingEndQuote (ch : Char) : Except RwErr Char :=
  if ch = '"' then .ok '"'
  else if ch = '[' then .ok ']'
  else if ch = '`' then .ok '`'
  else .error (.panicErr "unexpected quoting style")

/-- `impl SQLReWrite for Word` (rewrite/mod.rs lines 1324-1335).  Unlike
`Ident.rewrite` this accepts only `"`, `[` and `` ` `` as markers. -/
def Word.rewrite (w : Word) (ctx : Ctx) : RwResult :=
  match w.quote_style with
  | some s =>
    if s = '"' ∨ s = '[' ∨ s = '`' then do
      let e ← matchingEndQuote s
      .ok (s.toString ++ w.value ++ e.toString)
    else
      .error (.panicErr "Unexpected quote_style!")
  | none => .ok w.value

/-- Whitespace tokens (`sqlparser::tokenizer::Whitespace`).  The single-line
comment's field is named `prefix` in the source. -/
inductive Whitespace where
  | space
  | newline
  | tab
  | singleLineComment (pre : String) (comment : String)
  | multiLineComment (s : String)
deriving DecidableEq, Repr

/-- `impl SQLReWrite for Whitespace` (rewrite/mod.rs lines 1346-1357). -/
def Whitespace.rewrite (ws : Whitespace) (ctx : Ctx) : RwResult :=
  .ok (match ws with
    | .space => " "
    | .newline => "\n"
    | .tab => "\t"
    | .singleLineComment pre comment => pre ++ comment
    | .multiLineComment s => "/*" ++ s ++ "*/")

/-- Lexer tokens (`sqlparser::tokenizer::Token`); the parameter mark's payload
is embedded as a `Nat`. -/
inductive Token where
  | eof
  | word (w : Word)
  | number (n : String) (long : Bool)
  | char (c : Char)
  | singleQuotedString (s : String)
  | nationalStringLiteral (s : String)
  | hexStringLiteral (s : String)
  | comma
  | whitespace (ws : Whitespace)
  | doubleEq
  | spaceship
  | eq
  | neq
  | lt
  | gt
  | ltEq
  | gtEq
  | plus
  | minus
  | mult
  | div
  | stringConcat
  | mod
  | lParen
  | rParen
  | period
  | colon
  | doubleColon
  | semiColon
  | backslash
  | lBracket
  | rBracket
  | ampersand
  | caret
  | pipe
  | lBrace
  | rBrace
  | rArrow
  | sharp
  | exclamationMark
  | doubleExclamationMark
  | tilde
  | atSign
  | shiftLeft
  | shiftRight
  | pgSquareRoot
  | pgCubeRoot
  | parameterMark (mark : Nat)
deriving DecidableEq, Repr

/-- `impl SQLReWrite for Token` (rewrite/mod.rs lines 1264-1322).  The
`ParameterMark` arm is a placeholder appending nothing. -/
def Token.rewrite (t : Token) (ctx : Ctx) : RwResult :=
  match t with
  | .eof => .ok "EOF"
  | .word w => w.rewrite ctx
  | .number n long => .ok (n ++ if long then "L" else "")
  | .char c => .ok c.toString
  | .singleQuotedString s => .ok ("'" ++ s ++ "'")
  | .nationalStringLiteral s => .ok ("N'" ++ s ++ "'")
  | .hexStringLiteral s => .ok ("X'" ++ s ++ "'")
  | .comma => .ok ","
  | .whitespace ws => ws.rewrite ctx
  | .doubleEq => .ok "=="
  | .spaceship => .ok "<=>"
  | .eq => .ok "="
  | .neq => .ok "<>"
  | .lt => .ok "<"
  | .gt => .ok ">"
  | .ltEq => .ok "<="
  | .gtEq => .ok ">="
  | .plus => .ok "+"
  | .minus => .ok "-"
  | .mult => .ok "*"
  | .div => .ok "/"
  | .stringConcat => .ok "||"
  | .mod => .ok "%"
  | .lParen => .ok "("
  | .rParen => .ok ")"
  | .period => .ok "."
  | .colon => .ok ":"
  | .doubleColon => .ok "::"
  | .semiColon => .ok ";"
  | .backslash => .ok "\\"
  | .lBracket => .ok "["
  | .rBracket => .ok "]"
  | .ampersand => .ok "&"
  | .caret => .ok "^"
  | .pipe => .ok "|"
  | .lBrace => .ok "\x7b"
  | .rBrace => .ok "\x7d"
  | .rArrow => .ok "=>"
  | .sharp => .ok "#"
  | .exclamationMark => .ok "!"
  | .doubleExclamationMark => .ok "!!"
  | .tilde => .ok "~"
  | .atSign => .ok "@"
  | .shiftLeft => .ok "<<"
  | .shiftRight => .ok ">>"
  | .pgSquareRoot => .ok "|/"
  | .pgCubeRoot => .ok "||/"
  | .parameterMark _ => .ok ""

mutual

/-- SQL expressions (`sqlparser::ast::Expr`): the variants the claims touch,
with the full recursive structure (nesting, lists, subqueries) the depth
claims need.  Payload shapes follow rewrite/mod.rs lines 101-295. -/
inductive Expr where
  | identifier (s : Ident)
  | wildcard
  | qualifiedWildcard (q : List Ident)
  | compoundIdentifier (s : List Ident)
  | isNull (e : Expr)
  | isNotNull (e : Expr)
  | inList (e : Expr) (list : List Expr) (negated : Bool)
  | inSubquery (e : Expr) (subquery : Query) (negated : Bool)
  | between (e : Expr) (negated : Bool) (low : Expr) (high : Expr)
  | binaryOp (left : Expr) (op : BinaryOperator) (right : Expr)
  | unaryOp (op : UnaryOperator) (e : Expr)
  | cast (e : Expr) (data_type : DataType)
  | nested (e : Expr)
  | value (v : Value)
  | typedString (data_type : DataType) (value : String)
  | subquery (q : Query)
  | tryCast (e : Expr) (data_type : DataType)
  | parameterMark (mark : Nat)

/-- Modelled from the spec: a query / subquery (`sqlparser::ast::Query`;
rewrite/query.rs is not among the given files).  Per §3 it is a composite
node over projection expressions, a FROM name and a WHERE expression; per
§4.3 composite nodes only forward the context to their children. -/
inductive Query where
  | mk (projection : List Expr) (fromTable : Option ObjectName)
      (selection : Option Expr)

end

mutual

/-- `impl SQLReWrite for Expr` (rewrite/mod.rs lines 101-295).  The `TryCast`
and `ParameterMark` arms are placeholders appending nothing. -/
def Expr.rewrite : Expr → Ctx → RwResult
  | .identifier s, ctx => s.rewrite ctx
  | .wildcard, ctx => .ok "*"
  | .qualifiedWildcard q, ctx => do
    let s ← displaySeparated Ident.rewrite q "." ctx
    .ok (s ++ ".*")
  | .compoundIdentifier s, ctx => displaySeparated Ident.rewrite s "." ctx
  | .isNull ast, ctx => do
    let s ← ast.rewrite ctx
    .ok (s ++ " IS NULL")
  | .isNotNull ast, ctx => do
    let s ← ast.rewrite ctx
    .ok (s ++ " IS NOT NULL")
  | .inList e list negated, ctx => do
    let s ← e.rewrite ctx
    let l ← Expr.rewriteCommaGo "" list ctx
    .ok (s ++ " " ++ (if negated then "NOT " else "") ++ "IN (" ++ l ++ ")")
  | .inSubquery e sq negated, ctx => do
    let s ← e.rewrite ctx
    let qs ← sq.rewrite ctx
    .ok (s ++ " " ++ (if negated then "NOT " else "") ++ "IN (" ++ qs ++ ")")
  | .between e negated low high, ctx => do
    let s ← e.rewrite ctx
    let ls ← low.rewrite ctx
    let hs ← high.rewrite ctx
    .ok (s ++ " " ++ (if negated then "NOT " else "") ++ "BETWEEN " ++ ls
      ++ " AND " ++ hs)
  | .binaryOp left op right, ctx => do
    let ls ← left.rewrite ctx
    let ops ← op.rewrite ctx
    let rs ← right.rewrite ctx
    .ok (ls ++ " " ++ ops ++ " " ++ rs)
  | .unaryOp op e, ctx =>
    if op = .pgPostfixFactorial then do
      let s ← e.rewrite ctx
      let ops ← op.rewrite ctx
      .ok (s ++ ops)
    else do
      let ops ← op.rewrite ctx
      let s ← e.rewrite ctx
      .ok (ops ++ " " ++ s)
  | .cast e data_type, ctx => do
    let s ← e.rewrite ctx
    let ds ← data_type.rewrite ctx
    .ok ("CAST(" ++ s ++ " AS " ++ ds ++ ")")
  | .nested ast, ctx => do
    let s ← ast.rewrite ctx
    .ok ("(" ++ s ++ ")")
  | .value v, ctx => v.rewrite ctx
  | .typedString data_type value, ctx => do
    let ds ← data_type.rewrite ctx
    let es ← (escapeSingleQuoteString value).rewriteSql ctx
    .ok (ds ++ " '" ++ es ++ "'")
  | .subquery sq, ctx => do
    let qs ← sq.rewrite ctx
    .ok ("(" ++ qs ++ ")")
  | .tryCast _ _, ctx => .ok ""
  | .parameterMark _, ctx => .ok ""

/-- `displaySeparatedGo` specialised to `Expr.rewrite` with separator `", "`
(so that the mutual recursion stays structural); `Expr.rewriteCommaGo ""` is
`display_comma_separated` over expressions. -/
def Expr.rewriteCommaGo : String → List Expr → Ctx → RwResult
  | _, [], _ => .ok ""
  | delim, t :: ts, ctx => do
    let s ← t.rewrite ctx
    let rest ← Expr.rewriteCommaGo ", " ts ctx
    .ok (delim ++ s ++ rest)

/-- Modelled from the spec: the Render Pass over a query (rewrite/query.rs is
not among the given files): `SELECT` projection, then optional `FROM` and
`WHERE` clauses, the context forwarded unchanged to every child. -/
def Query.rewrite : Query → Ctx → RwResult
  | .mk projection fromTable selection, ctx => do
    let p ← Expr.rewriteCommaGo "" projection ctx
    let fs ← match fromTable with
      | some n => do
        let s ← n.rewrite ctx
        (.ok (" FROM " ++ s) : RwResult)
      | none => (.ok "" : RwResult)
    let ws ← match selection with
      | some e => do
        let s ← e.rewrite ctx
        (.ok (" WHERE " ++ s) : RwResult)
      | none => (.ok "" : RwResult)
    .ok ("SELECT " ++ p ++ fs ++ ws)

end

/-- Referential actions of a foreign key (`sqlparser::ast::ReferentialAction`). -/
inductive ReferentialAction where
  | restrict
  | cascade
  | setNull
  | noAction
  | setDefault
deriving DecidableEq, Repr

/-- Modelled from the spec: the Render Pass over a referential action
(rewrite/ddl.rs is not among the given files; the keyword texts are the ones
quoted in analyse/ddl.rs lines 305-311). -/
def ReferentialAction.rewrite (ra : ReferentialAction) (ctx : Ctx) : RwResult :=
  .ok (match ra with
    | .restrict => "RESTRICT"
    | .cascade => "CASCADE"
    | .setNull => "SET NULL"
    | .noAction => "NO ACTION"
    | .setDefault => "SET DEFAULT")

/-- A column option (`sqlparser::ast::ColumnOption`); the payload shapes
follow the Analysis Pass over them (analyse/ddl.rs lines 229-288). -/
inductive ColumnOption where
  | null
  | notNull
  | default (e : Expr)
  | unique (is_primary : Bool)
  | foreignKey (foreign_table : ObjectName) (referred_columns : List Ident)
      (on_delete : Option ReferentialAction) (on_update : Option ReferentialAction)
  | check (e : Expr)
  | dialectSpecific (val : List Token)

/-- An optionally named column option (`sqlparser::ast::ColumnOptionDef`). -/
structure ColumnOptionDef where
  name : Option Ident
  option : ColumnOption

/-- A column definition (`sqlparser::ast::ColumnDef`): name, data type and
ordered option list (the collation field is never consulted by either pass
in the given files). -/
structure ColumnDef where
  name : Ident
  data_type : DataType
  collation : Option ObjectName
  options : List ColumnOptionDef

/-- A table-level constraint (`sqlparser::ast::TableConstraint`); the payload
shapes follow the Analysis Pass over them (analyse/ddl.rs lines 131-187). -/
inductive TableConstraint where
  | unique (name : Option Ident) (columns : List Ident) (is_primary : Bool)
  | foreignKey (name : Option Ident) (columns : List Ident)
      (foreign_table : ObjectName) (referred_columns : List Ident)
  | check (name : Option Ident) (e : Expr)

/-- Modelled from the spec: `display_constraint_name`'s render half
(rewrite/ddl.rs is not among the given files; the text is the one quoted in
analyse/ddl.rs line 295): `CONSTRAINT <name> ` when the name is present. -/
def displayConstraintName (name : Option Ident) (ctx : Ctx) : RwResult :=
  match name with
  | some n => do
    let s ← n.rewrite ctx
    .ok ("CONSTRAINT " ++ s ++ " ")
  | none => .ok ""

/-- Modelled from the spec: the Render Pass over a column option
(rewrite/ddl.rs is not among the given files; clause texts are the ones
quoted in analyse/ddl.rs lines 229-288). -/
def ColumnOption.rewrite (co : ColumnOption) (ctx : Ctx) : RwResult :=
  match co with
  | .null => .ok "NULL"
  | .notNull => .ok "NOT NULL"
  | .default e => do
    let s ← e.rewrite ctx
    .ok ("DEFAULT " ++ s)
  | .unique is_primary => .ok (if is_primary then "PRIMARY KEY" else "UNIQUE")
  | .foreignKey foreign_table referred_columns on_delete on_update => do
    let ts ← foreign_table.rewrite ctx
    let rs ← if !referred_columns.isEmpty then do
        let s ← displayCommaSeparated Ident.rewrite referred_columns ctx
        (.ok (" (" ++ s ++ ")") : RwResult)
      else (.ok "" : RwResult)
    let ds ← match on_delete with
      | some action => do
        let s ← action.rewrite ctx
        (.ok (" ON DELETE " ++ s) : RwResult)
      | none => (.ok "" : RwResult)
    let us ← match on_update with
      | some action => do
        let s ← action.rewrite ctx
        (.ok (" ON UPDATE " ++ s) : RwResult)
      | none => (.ok "" : RwResult)
    .ok ("REFERENCES " ++ ts ++ rs ++ ds ++ us)
  | .check e => do
    let s ← e.rewrite ctx
    .ok ("CHECK (" ++ s ++ ")")
  | .dialectSpecific val => displaySeparated Token.rewrite val " " ctx

/-- Modelled from the spec: the Render Pass over an optionally named column
option (rewrite/ddl.rs is not among the given files). -/
def ColumnOptionDef.rewrite (d : ColumnOptionDef) (ctx : Ctx) : RwResult := do
  let ns ← displayConstraintName d.name ctx
  let os ← d.option.rewrite ctx
  .ok (ns ++ os)

/-- Modelled from the spec: the Render Pass over a column definition
(rewrite/ddl.rs is not among the given files): name, a space, the data type,
then each option preceded by a space (analyse/ddl.rs lines 190-201 quotes the
interleaved texts). -/
def ColumnDef.rewrite (cd : ColumnDef) (ctx : Ctx) : RwResult := do
  let ns ← cd.name.rewrite ctx
  let ds ← cd.data_type.rewrite ctx
  let os ← cd.options.foldlM (fun acc o => do
    let s ← o.rewrite ctx
    pure (acc ++ " " ++ s)) ""
  .ok (ns ++ " " ++ ds ++ os)

/-- Modelled from the spec: the Render Pass over a table constraint
(rewrite/ddl.rs is not among the given files; clause texts are the ones
quoted in analyse/ddl.rs lines 131-187). -/
def TableConstraint.rewrite (tc : TableConstraint) (ctx : Ctx) : RwResult :=
  match tc with
  | .unique name columns is_primary => do
    let ns ← displayConstraintName name ctx
    let cs ← displayCommaSeparated Ident.rewrite columns ctx
    .ok (ns ++ (if is_primary then "PRIMARY KEY" else "UNIQUE") ++ " ("
      ++ cs ++ ")")
  | .foreignKey name columns foreign_table referred_columns => do
    let ns ← displayConstraintName name ctx
    let cs ← displayCommaSeparated Ident.rewrite columns ctx
    let ts ← foreign_table.rewrite ctx
    let rs ← displayCommaSeparated Ident.rewrite referred_columns ctx
    .ok (ns ++ "FOREIGN KEY (" ++ cs ++ ") REFERENCES " ++ ts ++ "("
      ++ rs ++ ")")
  | .check name e => do
    let ns ← displayConstraintName name ctx
    let s ← e.rewrite ctx
    .ok (ns ++ "CHECK (" ++ s ++ ")")

/-- An `name = value` option (`sqlparser::ast::SqlOption`). -/
structure SqlOption where
  name : Ident
  value : Value

/-- `impl SQLReWrite for SqlOption` (rewrite/mod.rs lines 1167-1174). -/
def SqlOption.rewrite (o : SqlOption) (ctx : Ctx) : RwResult := do
  let ns ← o.name.rewrite ctx
  let vs ← o.value.rewrite ctx
  .ok (ns ++ " = " ++ vs)

/-- A `SHOW`-statement filter (`sqlparser::ast::ShowStatementFilter`); the
`Where` variant is named `whereCond` because `where` is reserved in Lean. -/
inductive ShowStatementFilter where
  | like (pattern : String)
  | whereCond (e : Expr)
  | ilike (pattern : String)

/-- `impl SQLReWrite for ShowStatementFilter` (rewrite/mod.rs lines
1216-1233).  The `ILike` arm is a placeholder appending nothing. -/
def ShowStatementFilter.rewrite (sf : ShowStatementFilter) (ctx : Ctx) :
    RwResult :=
  match sf with
  | .like pattern => do
    let es ← (escapeSingleQuoteString pattern).rewriteSql ctx
    .ok ("LIKE '" ++ es ++ "'")
  | .whereCond e => do
    let s ← e.rewrite ctx
    .ok ("WHERE " ++ s)
  | .ilike _ => .ok ""

/-- Hive table distribution (`sqlparser::ast::HiveDistributionStyle`). -/
inductive HiveDistributionStyle where
  | PARTITIONED (columns : List ColumnDef)
  | CLUSTERED (columns : List Ident) (sorted_by : List ColumnDef)
      (num_buckets : Nat)
  | SKEWED (columns : List ColumnDef) (onCols : List ColumnDef)
      (stored_as_directories : Bool)
  | NONE

/-- Hive row format (`sqlparser::ast::HiveRowFormat`). -/
inductive HiveRowFormat where
  | SERDE (cls : String)
  | DELIMITED
deriving DecidableEq, Repr

/-- Hive input/output format (`sqlparser::ast::HiveIOFormat`). -/
inductive HiveIOFormat where
  | IOF (input_format : Expr) (output_format : Expr)
  | FileFmt (format : FileFormat)

/-- Hive storage description (`sqlparser::ast::HiveFormat`). -/
structure HiveFormat where
  row_format : Option HiveRowFormat
  storage : Option HiveIOFormat
  location : Option String

/-- Top-level statements (`sqlparser::ast::Statement`): the variants the
claims touch.  `CreateTable`'s fields follow the binding list of
rewrite/mod.rs lines 634-646 (its AS-query field is named `queryOpt` here
to avoid clashing with the `query` variant; the `SetNames`/`ShowVariable`
field named `variable` in the source is `var` here, `variable` being
reserved in Lean). -/
inductive Statement where
  | query (q : Query)
  | createTable (temporary : Bool) (name : ObjectName)
      (columns : List ColumnDef) (constraints : List TableConstraint)
      (hive_distribution : HiveDistributionStyle)
      (hive_formats : Option HiveFormat) (table_properties : List SqlOption)
      (with_options : List SqlOption) (or_replace : Bool)
      (if_not_exists : Bool) (external : Bool)
      (file_format : Option FileFormat) (location : Option String)
      (queryOpt : Option Query) (without_rowid : Bool)
      (like : Option ObjectName)
  | setNames (var : Ident)
  | showVariable (var : List Ident)
  | execute (name : Ident) (parameters : List Expr)

/-- The `CREATE TABLE` clauses rendered after the column/constraint list,
in source order (rewrite/mod.rs lines 674-809): `WITHOUT ROWID`, `LIKE`,
the Hive distribution clause, the Hive row/storage format, the external
`STORED AS`/`LOCATION` pair (both unwrapped), `TBLPROPERTIES`, `WITH`
options and the trailing `AS`-query. -/
def createTableTail (hive_distribution : HiveDistributionStyle)
    (hive_formats : Option HiveFormat) (table_properties : List SqlOption)
    (with_options : List SqlOption) (external : Bool)
    (file_format : Option FileFormat) (location : Option String)
    (queryOpt : Option Query) (without_rowid : Bool)
    (like : Option ObjectName) (ctx : Ctx) : RwResult := do
  let rowid := if without_rowid then " WITHOUT ROWID" else ""
  let likeS ← match like with
    | some l => do
      let s ← l.rewrite ctx
      (.ok (" LIKE " ++ s) : RwResult)
    | none => (.ok "" : RwResult)
  let hiveDist ← match hive_distribution with
    | .PARTITIONED columns => do
      let s ← displayCommaSeparated ColumnDef.rewrite columns ctx
      (.ok (" PARTITIONED BY (" ++ s ++ ")") : RwResult)
    | .CLUSTERED columns sorted_by num_buckets => do
      let cs ← displayCommaSeparated Ident.rewrite columns ctx
      let ss ← if !sorted_by.isEmpty then do
          let s ← displayCommaSeparated ColumnDef.rewrite sorted_by ctx
          (.ok (" SORTED BY (" ++ s ++ ")") : RwResult)
        else (.ok "" : RwResult)
      let bs := if num_buckets > 0 then
          " INTO " ++ toString num_buckets ++ " BUCKETS"
        else ""
      (.ok (" CLUSTERED BY (" ++ cs ++ ")" ++ ss ++ bs) : RwResult)
    | .SKEWED columns onCols stored_as_directories => do
      let cs ← displayCommaSeparated ColumnDef.rewrite columns ctx
      let os ← displayCommaSeparated ColumnDef.rewrite onCols ctx
      (.ok (" SKEWED BY (" ++ cs ++ ")) ON (" ++ os ++ ")"
        ++ (if stored_as_directories then " STORED AS DIRECTORIES" else ""))
        : RwResult)
    | .NONE => (.ok "" : RwResult)
  let hf ← match hive_formats with
    | some ⟨row_format, storage, loc⟩ => do
      let rf ← match row_format with
        | some (.SERDE cls) =>
          (.ok (" ROW FORMAT SERDE '" ++ cls ++ "'") : RwResult)
        | some .DELIMITED => (.ok " ROW FORMAT DELIMITED" : RwResult)
        | none => (.ok "" : RwResult)
      let st ← match storage with
        | some (.IOF input_format output_format) => do
          let inps ← input_format.rewrite ctx
          let outs ← output_format.rewrite ctx
          (.ok (" STORED AS INPUTFORMAT " ++ inps ++ " OUTPUTFORMAT " ++ outs)
            : RwResult)
        | some (.FileFmt format) =>
          if external then (.ok "" : RwResult)
          else do
            let s ← format.rewrite ctx
            (.ok (" STORED AS " ++ s) : RwResult)
        | none => (.ok "" : RwResult)
      let ls := if external then ""
        else match loc with
          | some l => " LOCATION '" ++ l ++ "'"
          | none => ""
      (.ok (rf ++ st ++ ls) : RwResult)
    | none => (.ok "" : RwResult)
  let ext ← if external then do
      let ffs ← match file_format with
        | some ff => ff.rewrite ctx
        | none =>
          (.error (.panicErr "called Option::unwrap on a None value")
            : RwResult)
      let locs ← match location with
        | some l => l.rewriteSql ctx
        | none =>
          (.error (.panicErr "called Option::unwrap on a None value")
            : RwResult)
      (.ok (" STORED AS " ++ ffs ++ " LOCATION '" ++ locs ++ "'") : RwResult)
    else (.ok "" : RwResult)
  let tp ← if !table_properties.isEmpty then do
      let s ← displayCommaSeparated SqlOption.rewrite table_properties ctx
      (.ok (" TBLPROPERTIES (" ++ s ++ ")") : RwResult)
    else (.ok "" : RwResult)
  let wo ← if !with_options.isEmpty then do
      let s ← displayCommaSeparated SqlOption.rewrite with_options ctx
      (.ok (" WITH (" ++ s ++ ")") : RwResult)
    else (.ok "" : RwResult)
  let qs ← match queryOpt with
    | some q => do
      let s ← q.rewrite ctx
      (.ok (" AS " ++ s) : RwResult)
    | none => (.ok "" : RwResult)
  .ok (rowid ++ likeS ++ hiveDist ++ hf ++ ext ++ tp ++ wo ++ qs)

/-- `impl SQLReWrite for Statement` (rewrite/mod.rs lines 382-1032), for the
embedded variants:
* `Query` (line 405),
* `CreateTable` (lines 634-810; the flag prefix, the name, the
  column/constraint list — literal `()` when both lists are empty and no
  AS-query is present — then `createTableTail`),
* `SetNames` (lines 954-957),
* `ShowVariable` (lines 911-917: `SHOW `, then another space and the
  space-separated variable list when it is non-empty),
* `Execute` (lines 1004-1012: the parameter list is opened with `(` and
  closed with the two characters `()`). -/
def Statement.rewrite (st : Statement) (ctx : Ctx) : RwResult :=
  match st with
  | .query s => s.rewrite ctx
  | .createTable temporary name columns constraints hive_distribution
      hive_formats table_properties with_options or_replace if_not_exists
      external file_format location queryOpt without_rowid like => do
    let pre := "CREATE " ++ (if or_replace then "OR REPLACE " else "")
      ++ (if external then "EXTERNAL " else "") ++ "TABLE "
      ++ (if if_not_exists then "IF NOT EXISTS " else "")
    let ns ← name.rewrite ctx
    let colsPart ← if !columns.isEmpty || !constraints.isEmpty then do
        let cs ← displayCommaSeparated ColumnDef.rewrite columns ctx
        let mid := if !columns.isEmpty && !constraints.isEmpty then ", " else ""
        let ts ← displayCommaSeparated TableConstraint.rewrite constraints ctx
        (.ok (" (" ++ cs ++ mid ++ ts ++ ")") : RwResult)
      else if queryOpt.isNone then (.ok " ()" : RwResult)
      else (.ok "" : RwResult)
    let tail ← createTableTail hive_distribution hive_formats
      table_properties with_options external file_format location queryOpt
      without_rowid like ctx
    .ok (pre ++ ns ++ colsPart ++ tail)
  | .setNames var => do
    let vs ← var.rewrite ctx
    .ok ("SET NAMES " ++ vs)
  | .showVariable var => do
    let vs ← if !var.isEmpty then do
        let s ← displaySeparated Ident.rewrite var " " ctx
        (.ok (" " ++ s) : RwResult)
      else (.ok "" : RwResult)
    .ok ("SHOW " ++ vs)
  | .execute name parameters => do
    let ns ← name.rewrite ctx
    let ps ← if !parameters.isEmpty then do
        let s ← displayCommaSeparated Expr.rewrite parameters ctx
        (.ok ("(" ++ s ++ "()") : RwResult)
      else (.ok "" : RwResult)
    .ok ("EXECUTE " ++ ns ++ ps)

/-!
The Analysis Pass (`analyse/ddl.rs`).  `SQLStatementContext` is caller-owned
and opaque to this code (§3), so the accumulator is an abstract state type
`σ` and an analysis step returns `Except ε σ`: the updated accumulator, or
the failure the accumulator signalled.  The leaf analysers for `Ident`,
`DataType`, `Expr`, `ObjectName` and `Token` live in analyse modules that are
not among the given files, so they are taken as parameters.
-/

/-- Modelled from the spec: the analyse half of `display_comma_separated` /
`display_separated` (analyse/mod.rs is not among the given files): the
elements are visited in traversal order and the first failure aborts the
walk (§4.2 fail-fast). -/
def analyseSeparated {σ ε α : Type} (a : α → σ → Except ε σ) :
    List α → σ → Except ε σ
  | [], s => .ok s
  | t :: ts, s => do
    let s ← a t s
    analyseSeparated a ts s

/-- `display_constraint_name`'s analyse half (analyse/ddl.rs lines 290-301):
a no-op on the accumulator. -/
def displayConstraintNameAnalyse {σ ε : Type} (name : Option Ident) (s : σ) :
    Except ε σ :=
  .ok s

/-- `impl SQLAnalyse for ReferentialAction` (analyse/ddl.rs lines 303-314):
a no-op on the accumulator. -/
def ReferentialAction.analyse {σ ε : Type} (ra : ReferentialAction) (s : σ) :
    Except ε σ :=
  .ok s

/-- `impl SQLAnalyse for ColumnOption` (analyse/ddl.rs lines 229-288), over
abstract leaf analysers. -/
def ColumnOption.analyse {σ ε : Type} (aExpr : Expr → σ → Except ε σ)
    (aObjectName : ObjectName → σ → Except ε σ)
    (aIdent : Ident → σ → Except ε σ) (aToken : Token → σ → Except ε σ) :
    ColumnOption → σ → Except ε σ
  | .null, s => .ok s
  | .notNull, s => .ok s
  | .default e, s => aExpr e s
  | .unique _, s => .ok s
  | .foreignKey foreign_table referred_columns on_delete on_update, s => do
    let s ← aObjectName foreign_table s
    let s ← if !referred_columns.isEmpty then
        analyseSeparated aIdent referred_columns s
      else (.ok s : Except ε σ)
    let s ← match on_delete with
      | some action => ReferentialAction.analyse action s
      | none => (.ok s : Except ε σ)
    let s ← match on_update with
      | some action => ReferentialAction.analyse action s
      | none => (.ok s : Except ε σ)
    .ok s
  | .check e, s => aExpr e s
  | .dialectSpecific val, s => analyseSeparated aToken val s

/-- `impl SQLAnalyse for ColumnOptionDef` (analyse/ddl.rs lines 219-225). -/
def ColumnOptionDef.analyse {σ ε : Type} (aExpr : Expr → σ → Except ε σ)
    (aObjectName : ObjectName → σ → Except ε σ)
    (aIdent : Ident → σ → Except ε σ) (aToken : Token → σ → Except ε σ)
    (d : ColumnOptionDef) (s : σ) : Except ε σ := do
  let s ← displayConstraintNameAnalyse d.name s
  ColumnOption.analyse aExpr aObjectName aIdent aToken d.option s

/-- `impl SQLAnalyse for ColumnDef` (analyse/ddl.rs lines 190-201): the
name, then the data type, then each option in order, each step via `?`. -/
def ColumnDef.analyse {σ ε : Type} (aIdent : Ident → σ → Except ε σ)
    (aDataType : DataType → σ → Except ε σ)
    (aExpr : Expr → σ → Except ε σ)
    (aObjectName : ObjectName → σ → Except ε σ)
    (aToken : Token → σ → Except ε σ) (cd : ColumnDef) (s : σ) :
    Except ε σ := do
  let s ← aIdent cd.name s
  let s ← aDataType cd.data_type s
  analyseSeparated (ColumnOptionDef.analyse aExpr aObjectName aIdent aToken)
    cd.options s

/-- `impl SQLAnalyse for TableConstraint` (analyse/ddl.rs lines 131-187). -/
def TableConstraint.analyse {σ ε : Type} (aIdent : Ident → σ → Except ε σ)
    (aExpr : Expr → σ → Except ε σ)
    (aObjectName : ObjectName → σ → Except ε σ) :
    TableConstraint → σ → Except ε σ
  | .unique name columns _, s => do
    let s ← displayConstraintNameAnalyse name s
    analyseSeparated aIdent columns s
  | .foreignKey name columns foreign_table referred_columns, s => do
    let s ← displayConstraintNameAnalyse name s
    let s ← analyseSeparated aIdent columns s
    let s ← aObjectName foreign_table s
    analyseSeparated aIdent referred_columns s
  | .check name e, s => do
    let s ← displayConstraintNameAnalyse name s
    aExpr e s

/-- The text obtained by joining `outs` with `sep` between adjacent elements:
no leading and no trailing separator, and exactly `outs.length - 1` separator
occurrences are introduced. -/
def joinSep (sep : String) : List String → String
  | [] => ""
  | [o] => o
  | o :: os => o ++ sep ++ joinSep sep os

/-- ASCII upper-casing by characters (kernel-evaluable, unlike
`String.toUpper`'s position-based loop): the case-insensitive comparison of
the repository's `test_rewrite` (`sql.to_uppercase()`). -/
def toUpperAscii (s : String) : String :=
  String.mk (s.data.map Char.toUpper)

/-! Helper lemmas. -/

@[simp] theorem ok_bind {ε α β : Type} (a : α) (g : α → Except ε β) :
    (Except.ok a >>= g : Except ε β) = g a := rfl

@[simp] theorem error_bind {ε α β : Type} (e : ε) (g : α → Except ε β) :
    (Except.error e >>= g : Except ε β) = Except.error e := rfl

theorem bind_eq_ok {ε α β : Type} {x : Except ε α} {g : α → Except ε β}
    {b : β} (h : (x >>= g : Except ε β) = .ok b) :
    ∃ a, x = .ok a ∧ g a = .ok b := by
  cases x with
  | ok a => exact ⟨a, rfl, h⟩
  | error e => exact absurd h (by simp)

/-- No renderer in the given files ever reads the context; the lemmas below
establish that fact renderer by renderer, recursively. -/
theorem identRw_ctxFree (i : Ident) (c : Ctx) :
    i.rewrite c = i.rewrite [] := rfl

theorem stringSqlRw_ctxFree (s : String) (c : Ctx) :
    s.rewriteSql c = s.rewriteSql [] := rfl

theorem unaryOpRw_ctxFree (op : UnaryOperator) (c : Ctx) :
    op.rewrite c = op.rewrite [] := rfl

theorem binaryOpRw_ctxFree (op : BinaryOperator) (c : Ctx) :
    op.rewrite c = op.rewrite [] := rfl

theorem valueRw_ctxFree (v : Value) (c : Ctx) :
    v.rewrite c = v.rewrite [] := rfl

theorem fileFormatRw_ctxFree (ff : FileFormat) (c : Ctx) :
    ff.rewrite c = ff.rewrite [] := rfl

theorem wordRw_ctxFree (w : Word) (c : Ctx) :
    w.rewrite c = w.rewrite [] := rfl

theorem whitespaceRw_ctxFree (ws : Whitespace) (c : Ctx) :
    ws.rewrite c = ws.rewrite [] := rfl

theorem tokenRw_ctxFree (t : Token) (c : Ctx) :
    t.rewrite c = t.rewrite [] := by
  cases t <;> rfl

theorem displaySeparatedGo_ctxFree {α : Type} (rw : α → Ctx → RwResult)
    (hrw : ∀ t c, rw t c = rw t []) (sep : String) :
    ∀ (d : String) (l : List α) (c : Ctx),
      displaySeparatedGo rw sep c d l = displaySeparatedGo rw sep [] d l
  | d, [], c => rfl
  | d, t :: ts, c => by
    simp only [displaySeparatedGo]
    rw [hrw t c, displaySeparatedGo_ctxFree rw hrw sep sep ts c]

theorem displaySeparated_ctxFree {α : Type} (rw : α → Ctx → RwResult)
    (hrw : ∀ t c, rw t c = rw t []) (slice : List α) (sep : String)
    (c : Ctx) :
    displaySeparated rw slice sep c = displaySeparated rw slice sep [] :=
  displaySeparatedGo_ctxFree rw hrw sep "" slice c

theorem objectNameRw_ctxFree (n : ObjectName) (c : Ctx) :
    n.rewrite c = n.rewrite [] :=
  displaySeparated_ctxFree Ident.rewrite identRw_ctxFree n.idents "." c

theorem dataTypeRw_ctxFree (dt : DataType) (c : Ctx) :
    dt.rewrite c = dt.rewrite [] := by
  induction dt <;>
    simp [DataType.rewrite, objectNameRw_ctxFree, *]

mutual

theorem exprRw_ctxFree :
    ∀ (e : Expr) (c : Ctx), Expr.rewrite e c = Expr.rewrite e []
  | .identifier i, c => rfl
  | .wildcard, c => rfl
  | .qualifiedWildcard q, c => by
    simp only [Expr.rewrite]
    rw [displaySeparated_ctxFree Ident.rewrite identRw_ctxFree q "." c]
  | .compoundIdentifier s, c => by
    simp only [Expr.rewrite]
    rw [displaySeparated_ctxFree Ident.rewrite identRw_ctxFree s "." c]
  | .isNull a, c => by
    simp only [Expr.rewrite]
    rw [exprRw_ctxFree a c]
  | .isNotNull a, c => by
    simp only [Expr.rewrite]
    rw [exprRw_ctxFree a c]
  | .inList e l neg, c => by
    simp only [Expr.rewrite]
    rw [exprRw_ctxFree e c, exprCommaGoRw_ctxFree "" l c]
  | .inSubquery e sq neg, c => by
    simp only [Expr.rewrite]
    rw [exprRw_ctxFree e c, queryRw_ctxFree sq c]
  | .between e neg lo hi, c => by
    simp only [Expr.rewrite]
    rw [exprRw_ctxFree e c, exprRw_ctxFree lo c,
      exprRw_ctxFree hi c]
  | .binaryOp l op r, c => by
    simp only [Expr.rewrite]
    rw [exprRw_ctxFree l c, exprRw_ctxFree r c,
      binaryOpRw_ctxFree op c]
  | .unaryOp op e, c => by
    simp only [Expr.rewrite]
    rw [exprRw_ctxFree e c, unaryOpRw_ctxFree op c]
  | .cast e dt, c => by
    simp only [Expr.rewrite]
    rw [exprRw_ctxFree e c, dataTypeRw_ctxFree dt c]
  | .nested a, c => by
    simp only [Expr.rewrite]
    rw [exprRw_ctxFree a c]
  | .value v, c => rfl
  | .typedString dt v, c => by
    simp only [Expr.rewrite]
    rw [dataTypeRw_ctxFree dt c,
      stringSqlRw_ctxFree (escapeSingleQuoteString v) c]
  | .subquery sq, c => by
    simp only [Expr.rewrite]
    rw [queryRw_ctxFree sq c]
  | .tryCast _ _, c => rfl
  | .parameterMark _, c => rfl

theorem exprCommaGoRw_ctxFree :
    ∀ (d : String) (l : List Expr) (c : Ctx),
      Expr.rewriteCommaGo d l c = Expr.rewriteCommaGo d l []
  | d, [], c => rfl
  | d, t :: ts, c => by
    simp only [Expr.rewriteCommaGo]
    rw [exprRw_ctxFree t c, exprCommaGoRw_ctxFree ", " ts c]

theorem queryRw_ctxFree :
    ∀ (q : Query) (c : Ctx), Query.rewrite q c = Query.rewrite q []
  | .mk proj ft none, c => by
    cases ft with
    | none =>
      simp only [Query.rewrite]
      rw [exprCommaGoRw_ctxFree "" proj c]
    | some n =>
      simp only [Query.rewrite]
      rw [exprCommaGoRw_ctxFree "" proj c,
        objectNameRw_ctxFree n c]
  | .mk proj ft (some e), c => by
    cases ft with
    | none =>
      simp only [Query.rewrite]
      rw [exprCommaGoRw_ctxFree "" proj c, exprRw_ctxFree e c]
    | some n =>
      simp only [Query.rewrite]
      rw [exprCommaGoRw_ctxFree "" proj c,
        objectNameRw_ctxFree n c, exprRw_ctxFree e c]

end

theorem dcsIdent_ctxFree (l : List Ident) (c : Ctx) :
    displayCommaSeparated Ident.rewrite l c
      = displayCommaSeparated Ident.rewrite l [] :=
  displaySeparated_ctxFree Ident.rewrite identRw_ctxFree l ", " c

theorem dsIdentSpace_ctxFree (l : List Ident) (c : Ctx) :
    displaySeparated Ident.rewrite l " " c
      = displaySeparated Ident.rewrite l " " [] :=
  displaySeparated_ctxFree Ident.rewrite identRw_ctxFree l " " c

theorem dsTokenSpace_ctxFree (l : List Token) (c : Ctx) :
    displaySeparated Token.rewrite l " " c
      = displaySeparated Token.rewrite l " " [] :=
  displaySeparated_ctxFree Token.rewrite tokenRw_ctxFree l " " c

theorem dcsExpr_ctxFree (l : List Expr) (c : Ctx) :
    displayCommaSeparated Expr.rewrite l c
      = displayCommaSeparated Expr.rewrite l [] :=
  displaySeparated_ctxFree Expr.rewrite exprRw_ctxFree l ", " c

theorem refActionRw_ctxFree (ra : ReferentialAction) (c : Ctx) :
    ra.rewrite c = ra.rewrite [] := rfl

theorem displayConstraintName_ctxFree (name : Option Ident) (c : Ctx) :
    displayConstraintName name c = displayConstraintName name [] := by
  cases name <;> rfl

theorem columnOptionRw_ctxFree (co : ColumnOption) (c : Ctx) :
    co.rewrite c = co.rewrite [] := by
  cases co <;>
    simp only [ColumnOption.rewrite, exprRw_ctxFree,
      objectNameRw_ctxFree, refActionRw_ctxFree,
      dcsIdent_ctxFree, dsTokenSpace_ctxFree]

theorem columnOptionDefRw_ctxFree (d : ColumnOptionDef) (c : Ctx) :
    d.rewrite c = d.rewrite [] := by
  simp only [ColumnOptionDef.rewrite, displayConstraintName_ctxFree,
    columnOptionRw_ctxFree]

theorem columnDefRw_ctxFree (cd : ColumnDef) (c : Ctx) :
    cd.rewrite c = cd.rewrite [] := by
  simp only [ColumnDef.rewrite, identRw_ctxFree,
    dataTypeRw_ctxFree, columnOptionDefRw_ctxFree]

theorem dcsColumnDef_ctxFree (l : List ColumnDef) (c : Ctx) :
    displayCommaSeparated ColumnDef.rewrite l c
      = displayCommaSeparated ColumnDef.rewrite l [] :=
  displaySeparated_ctxFree ColumnDef.rewrite columnDefRw_ctxFree l ", " c

theorem tableConstraintRw_ctxFree (tc : TableConstraint) (c : Ctx) :
    tc.rewrite c = tc.rewrite [] := by
  cases tc <;>
    simp only [TableConstraint.rewrite, displayConstraintName_ctxFree,
      dcsIdent_ctxFree, objectNameRw_ctxFree, exprRw_ctxFree]

theorem dcsTableConstraint_ctxFree (l : List TableConstraint) (c : Ctx) :
    displayCommaSeparated TableConstraint.rewrite l c
      = displayCommaSeparated TableConstraint.rewrite l [] :=
  displaySeparated_ctxFree TableConstraint.rewrite
    tableConstraintRw_ctxFree l ", " c

theorem sqlOptionRw_ctxFree (o : SqlOption) (c : Ctx) :
    o.rewrite c = o.rewrite [] := by
  simp only [SqlOption.rewrite, identRw_ctxFree, valueRw_ctxFree]

theorem dcsSqlOption_ctxFree (l : List SqlOption) (c : Ctx) :
    displayCommaSeparated SqlOption.rewrite l c
      = displayCommaSeparated SqlOption.rewrite l [] :=
  displaySeparated_ctxFree SqlOption.rewrite sqlOptionRw_ctxFree l ", " c

theorem showFilterRw_ctxFree (sf : ShowStatementFilter)
    (c : Ctx) : sf.rewrite c = sf.rewrite [] := by
  cases sf <;>
    simp only [ShowStatementFilter.rewrite, stringSqlRw_ctxFree,
      exprRw_ctxFree]

theorem createTableTail_ctxFree (hd : HiveDistributionStyle)
    (hf : Option HiveFormat) (tp : List SqlOption) (wo : List SqlOption)
    (ext : Bool) (ff : Option FileFormat) (loc : Option String)
    (qo : Option Query) (wr : Bool) (lk : Option ObjectName) (c : Ctx) :
    createTableTail hd hf tp wo ext ff loc qo wr lk c
      = createTableTail hd hf tp wo ext ff loc qo wr lk [] := by
  simp only [createTableTail, objectNameRw_ctxFree,
    dcsColumnDef_ctxFree, dcsIdent_ctxFree, dcsSqlOption_ctxFree,
    exprRw_ctxFree, fileFormatRw_ctxFree,
    stringSqlRw_ctxFree, queryRw_ctxFree]

theorem statementRw_ctxFree (st : Statement) (c : Ctx) :
    st.rewrite c = st.rewrite [] := by
  cases st <;>
    simp only [Statement.rewrite, queryRw_ctxFree,
      objectNameRw_ctxFree, dcsColumnDef_ctxFree,
      dcsTableConstraint_ctxFree, createTableTail_ctxFree,
      identRw_ctxFree, dsIdentSpace_ctxFree, dcsExpr_ctxFree]

theorem displaySeparatedGo_joins {α : Type} (rw : α → Ctx → RwResult)
    (ctx : Ctx) (sep : String) :
    ∀ {es : List α} {outs : List String},
      List.Forall₂ (fun e s => rw e ctx = .ok s) es outs →
      ∀ d, displaySeparatedGo rw sep ctx d es
        = .ok (match outs with
          | [] => ""
          | o :: os => d ++ joinSep sep (o :: os)) := by
  intro es outs h
  induction h with
  | nil => intro d; rfl
  | @cons e o es' outs' he hrest ih =>
    intro d
    simp only [displaySeparatedGo, he, ok_bind, ih sep]
    cases outs' with
    | nil => simp [joinSep]
    | cons o' os' => simp [joinSep, String.append_assoc]

/-! The claims. -/

/-- C1 counterexample: rendering is *not* changed by a matching context
entry.  For the statement `SELECT (SELECT a)` — an identifier `a` nested
inside a subquery — rendering with the context `{a ↦ b}` produces exactly
the same text as rendering with the empty context, namely `SELECT (SELECT
a)`: the entry matching the identifier does not change its rendered text. -/
theorem C1_counterexample :
    Statement.rewrite (.query (.mk [.subquery (.mk [.identifier ⟨"a", none⟩]
        none none)] none none)) [("a", "b")]
      = Statement.rewrite (.query (.mk [.subquery (.mk
        [.identifier ⟨"a", none⟩] none none)] none none)) []
    ∧ Statement.rewrite (.query (.mk [.subquery (.mk
        [.identifier ⟨"a", none⟩] none none)] none none)) []
      = .ok "SELECT (SELECT a)" :=
  ⟨rfl, rfl⟩

/-- C1 (amended): the render context is threaded to every node but never
consulted: rendering any statement with any context equals rendering it with
the empty context, at every nesting depth, so no context entry can change the
rendered text of any identifier. -/
theorem C1_theorem (st : Statement) (c : Ctx) :
    st.rewrite c = st.rewrite [] :=
  statementRw_ctxFree st c

/-- C2: identifier rendering honors the recorded quote style: `[` opens with
`[` and closes with `]`; the double quote, `'` and the backtick open and close with
themselves; an absent marker renders the value verbatim with no quote
characters added. -/
theorem C2_theorem (v : String) (c : Ctx) :
    Ident.rewrite ⟨v, some '"'⟩ c = .ok ("\"" ++ v ++ "\"")
    ∧ Ident.rewrite ⟨v, some '\''⟩ c = .ok ("'" ++ v ++ "'")
    ∧ Ident.rewrite ⟨v, some '`'⟩ c = .ok ("`" ++ v ++ "`")
    ∧ Ident.rewrite ⟨v, some '['⟩ c = .ok ("[" ++ v ++ "]")
    ∧ Ident.rewrite ⟨v, none⟩ c = .ok v :=
  ⟨rfl, rfl, rfl, rfl, rfl⟩

/-- C3: a list rendered through the separator combinator with N>0 elements
whose renders succeed emits exactly the elements' renderings joined by the
separator — `joinSep` places one separator between adjacent elements, none
leading or trailing, so exactly N−1 occurrences are contributed. -/
theorem C3_theorem {α : Type} (rw : α → Ctx → RwResult) (ctx : Ctx)
    (sep : String) (es : List α) (outs : List String) (hne : es ≠ [])
    (h : List.Forall₂ (fun e s => rw e ctx = .ok s) es outs) :
    displaySeparated rw es sep ctx = .ok (joinSep sep outs)
      ∧ outs.length = es.length := by
  refine ⟨?_, h.length_eq.symm⟩
  have hj := displaySeparatedGo_joins rw ctx sep h ""
  cases h with
  | nil => exact absurd rfl hne
  | cons he hrest =>
    rw [displaySeparated, hj]
    simp

/-- C3 witness: two unquoted identifiers joined by `", "` render as
`a, b`. -/
theorem C3_witness :
    ([⟨"a", none⟩, ⟨"b", none⟩] : List Ident) ≠ []
    ∧ List.Forall₂ (fun e s => Ident.rewrite e [] = .ok s)
        [⟨"a", none⟩, ⟨"b", none⟩] ["a", "b"]
    ∧ (displaySeparated Ident.rewrite [⟨"a", none⟩, ⟨"b", none⟩] ", " []
          = .ok (joinSep ", " ["a", "b"])
        ∧ (["a", "b"] : List String).length
          = ([⟨"a", none⟩, ⟨"b", none⟩] : List Ident).length) :=
  ⟨by decide, .cons rfl (.cons rfl .nil),
    C3_theorem Ident.rewrite [] ", " [⟨"a", none⟩, ⟨"b", none⟩] ["a", "b"]
      (by decide) (.cons rfl (.cons rfl .nil))⟩

/-- C4 counterexample: the minimal empty `CREATE TABLE` renders as
`CREATE TABLE t ()`: the two-character sequence `()` is *not* immediately
after the rendered table name `t` (the text `t()` occurs nowhere in the
output); a single space intervenes (`t ()` does occur). -/
theorem C4_counterexample :
    Statement.rewrite (.createTable false ⟨[⟨"t", none⟩]⟩ [] [] .NONE none
        [] [] false false false none none none false none) []
      = .ok "CREATE TABLE t ()"
    ∧ ¬ List.IsInfix "t()".toList "CREATE TABLE t ()".toList
    ∧ List.IsInfix "t ()".toList "CREATE TABLE t ()".toList :=
  ⟨rfl, by decide, by decide⟩

/-- C4 (amended): rendering a `Statement::CreateTable` whose column list and
constraint list are both empty and whose AS-query is absent emits the
three-character sequence ` ()` — a single space and then `()` — immediately
after the rendered table name (and before whatever the later clauses
emit). -/
theorem C4_theorem (temporary : Bool) (name : ObjectName)
    (hive_distribution : HiveDistributionStyle)
    (hive_formats : Option HiveFormat) (table_properties : List SqlOption)
    (with_options : List SqlOption) (or_replace : Bool) (if_not_exists : Bool)
    (external : Bool) (file_format : Option FileFormat)
    (location : Option String) (without_rowid : Bool)
    (like : Option ObjectName) (ctx : Ctx) (out : String)
    (h : Statement.rewrite (.createTable temporary name [] []
        hive_distribution hive_formats table_properties with_options
        or_replace if_not_exists external file_format location none
        without_rowid like) ctx = .ok out) :
    ∃ nameOut tailOut,
      name.rewrite ctx = .ok nameOut
      ∧ out = "CREATE " ++ (if or_replace then "OR REPLACE " else "")
          ++ (if external then "EXTERNAL " else "") ++ "TABLE "
          ++ (if if_not_exists then "IF NOT EXISTS " else "")
          ++ nameOut ++ " ()" ++ tailOut := by
  simp [Statement.rewrite] at h
  obtain ⟨ns, hns, h⟩ := bind_eq_ok h
  obtain ⟨tl, htl, h⟩ := bind_eq_ok h
  exact ⟨ns, tl, hns, (Except.ok.inj h).symm⟩

/-- C4 witness: the amended statement at the minimal empty `CREATE TABLE`. -/
theorem C4_witness :
    Statement.rewrite (.createTable false ⟨[⟨"t", none⟩]⟩ [] [] .NONE none
        [] [] false false false none none none false none) []
      = .ok "CREATE TABLE t ()"
    ∧ ∃ nameOut tailOut,
        ObjectName.rewrite ⟨[⟨"t", none⟩]⟩ [] = .ok nameOut
        ∧ "CREATE TABLE t ()" = "CREATE "
            ++ (if false then "OR REPLACE " else "")
            ++ (if false then "EXTERNAL " else "") ++ "TABLE "
            ++ (if false then "IF NOT EXISTS " else "")
            ++ nameOut ++ " ()" ++ tailOut :=
  ⟨rfl, C4_theorem false ⟨[⟨"t", none⟩]⟩ .NONE none [] [] false false false
    none none false none [] "CREATE TABLE t ()" rfl⟩

/-- C5: the placeholder variants `Expr::TryCast`, `Expr::ParameterMark`,
`Token::ParameterMark` and the `ILIKE` show-statement filter all succeed
while appending nothing: their rewrite returns `Ok` with empty text. -/
theorem C5_theorem (c : Ctx) (e : Expr) (dt : DataType) (n m : Nat)
    (pat : String) :
    Expr.rewrite (.tryCast e dt) c = .ok ""
    ∧ Expr.rewrite (.parameterMark n) c = .ok ""
    ∧ Token.rewrite (.parameterMark m) c = .ok ""
    ∧ ShowStatementFilter.rewrite (.ilike pat) c = .ok "" :=
  ⟨rfl, rfl, rfl, rfl⟩

/-- C6: under the parser invariant that a present scale implies a present
precision, rendering `DataType::Decimal` is total: the precision `unwrap`
never reaches its failure branch, the rewrite succeeds, and it emits
`NUMERIC(p,s)` when the scale is present and `NUMERIC` with optional `(p)`
otherwise. -/
theorem C6_theorem (p s : Option Nat) (c : Ctx)
    (h : s.isSome = true → p.isSome = true) :
    ∃ t : String, DataType.rewrite (.decimal p s) c = .ok t
      ∧ (∀ sv pv, s = some sv → p = some pv →
          t = "NUMERIC(" ++ toString pv ++ "," ++ toString sv ++ ")")
      ∧ (s = none → .ok t = formatTypeWithOptionalLength "NUMERIC" p) := by
  cases s with
  | none =>
    refine ⟨"NUMERIC" ++ (match p with
      | some l => "(" ++ toString l ++ ")"
      | none => ""), ?_, ?_, ?_⟩
    · cases p <;> rfl
    · intro sv pv hs hp
      cases hs
    · intro hn
      cases p <;> rfl
  | some sv =>
    cases p with
    | none => simp at h
    | some pv =>
      exact ⟨"NUMERIC(" ++ toString pv ++ "," ++ toString sv ++ ")", rfl,
        fun sv' pv' hs hp => by
          cases hs; cases hp; rfl,
        fun hn => by cases hn⟩

theorem analyseSeparated_append {σ ε α : Type} (a : α → σ → Except ε σ)
    (l1 l2 : List α) (s : σ) :
    analyseSeparated a (l1 ++ l2) s
      = (analyseSeparated a l1 s) >>= analyseSeparated a l2 := by
  induction l1 generalizing s with
  | nil => rfl
  | cons t ts ih =>
    simp only [List.cons_append, analyseSeparated]
    cases h : a t s with
    | ok s' => simp [h, ih]
    | error e => simp [h]

/-- C7: the Analysis Pass is fail-fast.  In a comma-separated list of column
definitions, if the columns before `cd` analyse successfully, `cd`'s name
analyses successfully, and then analysing `cd`'s data type fails with `err`,
the enclosing analysis returns exactly `error err`: the failure propagates
unchanged through both enclosing levels, and no sibling positioned later in
traversal order is visited — the result does not depend on `cd`'s option
list, on the option/expression/name/token analysers, or on the trailing
columns `cds2`, all of which are universally quantified. -/
theorem C7_theorem {σ ε : Type} (aIdent : Ident → σ → Except ε σ)
    (aDataType : DataType → σ → Except ε σ)
    (aExpr : Expr → σ → Except ε σ)
    (aObjectName : ObjectName → σ → Except ε σ)
    (aToken : Token → σ → Except ε σ) (cds1 cds2 : List ColumnDef)
    (cd : ColumnDef) (s0 s1 s2 : σ) (err : ε)
    (h1 : analyseSeparated
      (ColumnDef.analyse aIdent aDataType aExpr aObjectName aToken)
      cds1 s0 = .ok s1)
    (h2 : aIdent cd.name s1 = .ok s2)
    (h3 : aDataType cd.data_type s2 = .error err) :
    analyseSeparated
      (ColumnDef.analyse aIdent aDataType aExpr aObjectName aToken)
      (cds1 ++ cd :: cds2) s0 = .error err := by
  rw [analyseSeparated_append, h1, ok_bind]
  simp only [analyseSeparated, ColumnDef.analyse, h2, ok_bind, h3,
    error_bind]

/-- C7 witness: with a two-element column list, a name analyser that counts
its calls and a data-type analyser that always fails, analysing the list
fails with exactly that failure. -/
theorem C7_witness :
    analyseSeparated (ColumnDef.analyse
        (fun (_ : Ident) (s : Nat) => (Except.ok (s + 1) : Except String Nat))
        (fun _ _ => Except.error "boom") (fun _ s => Except.ok s)
        (fun _ s => Except.ok s) (fun _ s => Except.ok s))
      [] 0 = Except.ok 0
    ∧ (fun (_ : Ident) (s : Nat) =>
        (Except.ok (s + 1) : Except String Nat))
        (⟨⟨"c", none⟩, .int, none, []⟩ : ColumnDef).name 0 = Except.ok 1
    ∧ (fun (_ : DataType) (_ : Nat) =>
        (Except.error "boom" : Except String Nat))
        (⟨⟨"c", none⟩, .int, none, []⟩ : ColumnDef).data_type 1
      = Except.error "boom"
    ∧ analyseSeparated (ColumnDef.analyse
        (fun (_ : Ident) (s : Nat) => (Except.ok (s + 1) : Except String Nat))
        (fun _ _ => Except.error "boom") (fun _ s => Except.ok s)
        (fun _ s => Except.ok s) (fun _ s => Except.ok s))
      ([] ++ (⟨⟨"c", none⟩, .int, none, []⟩ : ColumnDef)
        :: [⟨⟨"d", none⟩, .int, none, []⟩]) 0 = Except.error "boom" :=
  ⟨rfl, rfl, rfl,
    C7_theorem (fun _ s => Except.ok (s + 1)) (fun _ _ => Except.error "boom")
      (fun _ s => Except.ok s) (fun _ s => Except.ok s)
      (fun _ s => Except.ok s) [] [⟨⟨"d", none⟩, .int, none, []⟩]
      ⟨⟨"c", none⟩, .int, none, []⟩ 0 0 1 "boom" rfl rfl rfl⟩

/-- C8: the `SET NAMES utf8mb4` half of the round-trip claim holds, but the
`SHOW VARIABLES LIKE 'aurora_version'` half fails in the code: the
`ShowVariable` arm writes `SHOW ` and then another space before the variable
list, so the rendering carries a double space and differs from the original
statement text even case-insensitively — contradicting the repository's own
`test_rewrite`, which asserts `sql.to_uppercase() == resql.to_uppercase()`
for exactly this statement. -/
theorem C8_theorem :
    Statement.rewrite (.setNames ⟨"utf8mb4", none⟩) []
      = .ok "SET NAMES utf8mb4"
    ∧ Statement.rewrite (.showVariable [⟨"variables", none⟩, ⟨"like", none⟩,
        ⟨"aurora_version", some '\''⟩]) []
      = .ok "SHOW  variables like 'aurora_version'"
    ∧ toUpperAscii "SHOW  variables like 'aurora_version'"
      ≠ toUpperAscii "SHOW VARIABLES LIKE 'aurora_version'" :=
  ⟨rfl, rfl, by decide⟩

/-- C9: the `Execute` arm is *not* parenthesis-balanced: after opening `(`
before a non-empty parameter list it closes with the two characters `()`, so
`EXECUTE a(b)` renders as `EXECUTE a(b()` — two opening parentheses, one
closing — and the emitted statement is not syntactically valid SQL. -/
theorem C9_theorem :
    Statement.rewrite (.execute ⟨"a", none⟩ [.identifier ⟨"b", none⟩]) []
      = .ok "EXECUTE a(b()"
    ∧ "EXECUTE a(b()".toList.count '(' = 2
    ∧ "EXECUTE a(b()".toList.count ')' = 1 :=
  ⟨rfl, by decide, by decide⟩

/-- C10: `FileFormat::JSONFILE` renders as the text `TEXTFILE`, identically
to `FileFormat::TEXTFILE`, while every other variant renders as its own
uppercase keyword; hence the file-format renderer is not injective and a
JSONFILE table's format keyword is not preserved. -/
theorem C10_theorem (c : Ctx) :
    FileFormat.rewrite .JSONFILE c = .ok "TEXTFILE"
    ∧ FileFormat.rewrite .JSONFILE c = FileFormat.rewrite .TEXTFILE c
    ∧ FileFormat.rewrite .TEXTFILE c = .ok "TEXTFILE"
    ∧ FileFormat.rewrite .SEQUENCEFILE c = .ok "SEQUENCEFILE"
    ∧ FileFormat.rewrite .ORC c = .ok "ORC"
    ∧ FileFormat.rewrite .PARQUET c = .ok "PARQUET"
    ∧ FileFormat.rewrite .AVRO c = .ok "AVRO"
    ∧ FileFormat.rewrite .RCFILE c = .ok "RCFILE"
    ∧ ¬ Function.Injective (fun ff : FileFormat => FileFormat.rewrite ff c) :=
  ⟨rfl, rfl, rfl, rfl, rfl, rfl, rfl, rfl,
    fun hinj => nomatch @hinj .JSONFILE .TEXTFILE rfl⟩

/-- C6 witness: `DECIMAL(10,2)` satisfies the invariant and renders as
`NUMERIC(10,2)`. -/
theorem C6_witness :
    ((some 2 : Option Nat).isSome = true
        → (some 10 : Option Nat).isSome = true)
    ∧ ∃ t : String, DataType.rewrite (.decimal (some 10) (some 2)) [] = .ok t
        ∧ (∀ sv pv, (some 2 : Option Nat) = some sv
            → (some 10 : Option Nat) = some pv
            → t = "NUMERIC(" ++ toString pv ++ "," ++ toString sv ++ ")")
        ∧ ((some 2 : Option Nat) = none
            → .ok t = formatTypeWithOptionalLength "NUMERIC" (some 10)) :=
  ⟨fun _ => rfl, C6_theorem (some 10) (some 2) [] (fun _ => rfl)⟩
